import Mathlib

/-!
Verification development for the `wopr-plugin-provider-openai` repository:
a WOPR provider plugin adapting the Codex backend SDK to the host's
normalized event protocol.

The development shallowly embeds the two source modules:

* `ProviderCodex` embeds `src/index.ts` (the thread/turn streaming client
  `CodexClient` with session resumption): temperature-to-effort mapping,
  thread branch selection for `query`, prompt composition, backend-event
  normalization, and the error-wrapping discipline of `query`, `listModels`
  and `healthCheck`.
* `ProviderOpenAI` embeds the second client module (the A2A/MCP variant),
  in particular `convertA2AToCodexMcpConfig`.

JavaScript `undefined`-able values are embedded as `Option`; JS truthiness
on strings (`""` and `undefined` are falsy) is made explicit at each use
site.  Backend calls that may throw are embedded as `Except String`
results supplied by an oracle `Backend` structure, so that `query`'s
catch/wrap behaviour becomes a total function on backends.
-/

namespace ProviderCodex

/-- The Codex reasoning-effort enumeration
`"minimal" | "low" | "medium" | "high" | "xhigh"`. -/
inductive Effort where
  | minimal
  | low
  | medium
  | high
  | xhigh
deriving DecidableEq, Repr

/-- Embeds `temperatureToEffort(temp?: number)` from `src/index.ts`:
an absent temperature yields `medium`, otherwise a chain of `<=` tests
against 0.2 / 0.4 / 0.6 / 0.8.  The numeric argument is embedded as `ℚ`. -/
def temperatureToEffort : Option ℚ → Effort
  | none => Effort.medium
  | some temp =>
    if temp ≤ 0.2 then Effort.xhigh
    else if temp ≤ 0.4 then Effort.high
    else if temp ≤ 0.6 then Effort.medium
    else if temp ≤ 0.8 then Effort.low
    else Effort.minimal

/-- A value stored in the `threadOptions` object: either a string field or
the reasoning-effort enum field.  Caller-supplied `providerOptions`
values are embedded as strings (they are opaque to the adapter). -/
inductive OptVal where
  | str (s : String)
  | effortVal (e : Effort)
deriving DecidableEq, Repr

/-- Embeds `ModelQueryOptions` restricted to the fields `CodexClient.query`
reads.  Optional JS fields become `Option`. -/
structure QueryOptions where
  prompt : String
  systemPrompt : Option String := none
  resume : Option String := none
  model : Option String := none
  temperature : Option ℚ := none
  images : Option (List String) := none
  providerOptions : Option (List (String × OptVal)) := none
deriving Repr

/-- JS property assignment `obj[k] = v` on an object embedded as an ordered
association list: overwrite the existing key in place, else append. -/
def assignKey (obj : List (String × OptVal)) (k : String) (v : OptVal) :
    List (String × OptVal) :=
  if (obj.map Prod.fst).contains k then
    obj.map (fun p => if p.1 = k then (k, v) else p)
  else
    obj ++ [(k, v)]

/-- The `threadOptions` object composed by the start-new-thread branch of
`CodexClient.query`, before `providerOptions` are merged: working
directory (`process.cwd()` is passed in as `cwd`), fixed sandbox and
approval policy, the model name when truthy, and the mapped reasoning
effort. -/
def baseThreadOptions (cwd : String) (opts : QueryOptions) :
    List (String × OptVal) :=
  let o := [("workingDirectory", OptVal.str cwd),
            ("sandboxMode", OptVal.str "workspace-write"),
            ("approvalPolicy", OptVal.str "never")]
  let o := match opts.model with
    | some m => if m ≠ "" then assignKey o "model" (OptVal.str m) else o
    | none => o
  assignKey o "modelReasoningEffort"
    (OptVal.effortVal (temperatureToEffort opts.temperature))

/-- The final `threadOptions` object: `Object.assign(threadOptions,
opts.providerOptions)` merges the caller's raw overrides last,
last-write-wins per key. -/
def startThreadOptions (cwd : String) (opts : QueryOptions) :
    List (String × OptVal) :=
  match opts.providerOptions with
  | some overrides => overrides.foldl (fun acc p => assignKey acc p.1 p.2)
      (baseThreadOptions cwd opts)
  | none => baseThreadOptions cwd opts

/-- Which backend-session call `query` makes: `codex.resumeThread(token)`
or `codex.startThread(threadOptions)`. -/
inductive ThreadSpec where
  | resumeBranch (token : String)
  | startBranch (options : List (String × OptVal))
deriving DecidableEq, Repr

/-- Embeds the `if (opts.resume)` branch of `CodexClient.query`: JS
truthiness means a present, non-empty resume token selects the resume
branch, anything else the start branch. -/
def threadSpec (cwd : String) (opts : QueryOptions) : ThreadSpec :=
  match opts.resume with
  | some s => if s ≠ "" then ThreadSpec.resumeBranch s
      else ThreadSpec.startBranch (startThreadOptions cwd opts)
  | none => ThreadSpec.startBranch (startThreadOptions cwd opts)

/-- Embeds the prompt composition of `CodexClient.query`: starting from
`opts.prompt`, first the image manifest is prepended when `images` is
present and non-empty, then the system-prompt block is prepended when
`systemPrompt` is truthy. -/
def composePrompt (opts : QueryOptions) : String :=
  let prompt := opts.prompt
  let prompt :=
    match opts.images with
    | some images =>
      if images.length > 0 then
        let imageList := String.intercalate "\n"
          (images.enum.map (fun p =>
            "[Image " ++ toString (p.1 + 1) ++ "]: " ++ p.2))
        "[User has shared " ++ toString images.length ++ " image(s)]\n" ++
          imageList ++ "\n\n" ++ opts.prompt
      else prompt
    | none => prompt
  match opts.systemPrompt with
  | some sp =>
    if sp ≠ "" then "[System: " ++ sp ++ "]\n\n" ++ prompt else prompt
  | none => prompt

/-- Modelled from the spec: the prompt layout the specification describes
(the code under test is `composePrompt`).  Spec §4.3 and §8 place the
image-manifest block first, then the system-prompt block, then the
original prompt, joined with one blank line between present blocks.
Defined only to be compared against `composePrompt`. -/
def composePromptSpecOrder (opts : QueryOptions) : String :=
  let imageBlock : List String :=
    match opts.images with
    | some images =>
      if images.length > 0 then
        ["[User has shared " ++ toString images.length ++ " image(s)]\n" ++
          String.intercalate "\n"
            (images.enum.map (fun p =>
              "[Image " ++ toString (p.1 + 1) ++ "]: " ++ p.2))]
      else []
    | none => []
  let sysBlock : List String :=
    match opts.systemPrompt with
    | some sp => if sp ≠ "" then ["[System: " ++ sp ++ "]"] else []
    | none => []
  String.intercalate "\n\n" (imageBlock ++ sysBlock ++ [opts.prompt])

/-- A completed backend item (`event.item`), tagged by `item.type`.
Unrecognized item type tags are absorbed by `otherItem`.  The structured
`changes` payload of a file change is opaque to the adapter and embedded
as a string. -/
inductive Item where
  | agent_message (text : String)
  | reasoning (text : String)
  | command_execution (command : String) (aggregated_output : String)
      (exit_code : Int)
  | file_change (changes : String)
  | mcp_tool_call (server : String) (tool : String) (status : String)
  | otherItem (tag : String)
deriving DecidableEq, Repr

/-- The `usage` record of a `turn.completed` event; each token count may be
absent. -/
structure Usage where
  input_tokens : Option Nat
  output_tokens : Option Nat
deriving DecidableEq, Repr

/-- A backend stream event (`event`), tagged by `event.type`.  Unrecognized
event kinds are absorbed by `otherEvent`.  `turn.completed` may carry no
`usage` object and `turn.failed` may carry no `error` object, hence the
`Option`s. -/
inductive CodexEvent where
  | thread_started (thread_id : String)
  | turn_started
  | item_completed (item : Item)
  | turn_completed (usage : Option Usage)
  | turn_failed (message : Option String)
  | otherEvent (tag : String)
deriving DecidableEq, Repr

/-- The normalized events `CodexClient.query` yields to the host. -/
inductive NormalizedEvent where
  | session_id (id : String)
  | system_init (thread_id : String)
  | system_turn_start
  | text (t : String)
  | reasoning (t : String)
  | tool_use_bash (command : String) (output : String) (exit_code : Int)
  | tool_use_file_change (changes : String)
  | tool_use_mcp (name : String) (status : String)
  | usage (input_tokens : Option Nat) (output_tokens : Option Nat)
  | error (message : Option String)
deriving DecidableEq, Repr

/-- True exactly on `session_id` events. -/
def NormalizedEvent.isSessionId : NormalizedEvent → Bool
  | NormalizedEvent.session_id _ => true
  | _ => false

/-- Embeds the `item.completed` arm of the event switch: each recognized
item type yields one normalized event, everything else yields nothing. -/
def mapItem : Item → List NormalizedEvent
  | Item.agent_message t => [NormalizedEvent.text t]
  | Item.reasoning t => [NormalizedEvent.reasoning t]
  | Item.command_execution c out code =>
      [NormalizedEvent.tool_use_bash c out code]
  | Item.file_change ch => [NormalizedEvent.tool_use_file_change ch]
  | Item.mcp_tool_call server tool status =>
      [NormalizedEvent.tool_use_mcp ("mcp__" ++ server ++ "__" ++ tool) status]
  | Item.otherItem _ => []

/-- Embeds the `switch (event.type)` of `CodexClient.query`: each
recognized backend event kind yields zero or one normalized events
(`item.completed` defers to `mapItem`); unrecognized kinds fall through
the switch and yield nothing. -/
def mapEvent : CodexEvent → List NormalizedEvent
  | CodexEvent.thread_started tid => [NormalizedEvent.system_init tid]
  | CodexEvent.turn_started => [NormalizedEvent.system_turn_start]
  | CodexEvent.item_completed item => mapItem item
  | CodexEvent.turn_completed u =>
      [NormalizedEvent.usage (u.bind Usage.input_tokens)
        (u.bind Usage.output_tokens)]
  | CodexEvent.turn_failed msg => [NormalizedEvent.error msg]
  | CodexEvent.otherEvent _ => []

/-- The thread object returned by `resumeThread` / `startThread`; its `id`
may be absent. -/
structure Thread where
  id : Option String
deriving DecidableEq, Repr

/-- A JS value as far as `listModels` inspects one: `undefined`, a string,
or an object carrying (possibly absent) `model` / `id` / `name` string
fields. -/
inductive JsValue where
  | undef
  | str (s : String)
  | obj (model : Option String) (id : Option String) (name : Option String)
deriving DecidableEq, Repr

/-- JS truthiness of a `JsValue`: `undefined` and `""` are falsy, any
non-empty string and any object are truthy. -/
def JsValue.truthy : JsValue → Bool
  | JsValue.undef => false
  | JsValue.str s => s ≠ ""
  | JsValue.obj _ _ _ => true

/-- Lift an optional string field to a `JsValue` (`none` is `undefined`). -/
def ofOptStr : Option String → JsValue
  | some s => JsValue.str s
  | none => JsValue.undef

/-- JS property access `v.f` for the three fields `listModels` reads;
access on a non-object (or an unknown field) gives `undefined`. -/
def JsValue.field (v : JsValue) (f : String) : JsValue :=
  match v with
  | JsValue.obj m i n =>
    if f = "model" then ofOptStr m
    else if f = "id" then ofOptStr i
    else if f = "name" then ofOptStr n
    else JsValue.undef
  | _ => JsValue.undef

/-- JS `a || b`: `a` when truthy, else `b`. -/
def jsOr (a b : JsValue) : JsValue :=
  if a.truthy then a else b

/-- The shape of the value `codex.listModels()` resolves to:
`nullish` (so `response?.items` is `undefined`), an object with a (truthy,
since JS arrays are truthy) `items` array, a bare array, or any other
object. -/
inductive ModelsResponse where
  | nullish
  | withItems (items : List JsValue)
  | arrayResp (elems : List JsValue)
  | otherResp
deriving DecidableEq, Repr

/-- The backend event stream obtained from `thread.runStreamed`: the events
delivered before the stream either ends normally (`terminalError = none`)
or throws mid-iteration (`terminalError = some msg`). -/
structure StreamOutcome where
  events : List CodexEvent
  terminalError : Option String
deriving DecidableEq, Repr

/-- Oracle for one `CodexClient` call sequence: the outcome of each
backend operation `query` / `listModels` / `healthCheck` may perform.
`Except.error msg` means the operation throws with message `msg`.
`getCodexResult` covers `getCodex()` (SDK load plus `new Codex(...)`). -/
structure Backend where
  getCodexResult : Except String Unit
  resumeResult : String → Except String Thread
  startResult : List (String × OptVal) → Except String Thread
  runResult : String → Except String StreamOutcome
  listModelsResult : Except String ModelsResponse
  startPlainResult : Except String (Option Thread)

/-- Embeds `if (thread.id) yield { type: 'session_id', ... }`: a present,
non-empty thread id yields the session event, JS-falsy ids yield
nothing. -/
def sessionIdEvents (tid : Option String) : List NormalizedEvent :=
  match tid with
  | some t => if t ≠ "" then [NormalizedEvent.session_id t] else []
  | none => []

/-- Outcome of one `query` call: either the stream completed and yielded
`events`, or the call threw `message` after yielding `events`. -/
inductive QueryResult where
  | ok (events : List NormalizedEvent)
  | thrown (events : List NormalizedEvent) (message : String)
deriving DecidableEq, Repr

/-- The events a `QueryResult` delivered to the consumer. -/
def QueryResult.events : QueryResult → List NormalizedEvent
  | QueryResult.ok evs => evs
  | QueryResult.thrown evs _ => evs

/-- The thread obtained by the selected branch: `codex.resumeThread(token)`
on the resume branch, `codex.startThread(threadOptions)` on the start
branch. -/
def threadResult (b : Backend) (cwd : String) (opts : QueryOptions) :
    Except String Thread :=
  match threadSpec cwd opts with
  | ThreadSpec.resumeBranch tok => b.resumeResult tok
  | ThreadSpec.startBranch o => b.startResult o

/-- Embeds `CodexClient.query`.  `getCodex()` runs before the `try` block,
so its exception propagates unwrapped; every exception raised inside the
`try` (thread resume/start, `runStreamed`, stream iteration) is wrapped
as `Codex query failed: <message>`; a normally-exhausted stream yields
`ok`.  Events already yielded before a throw stay delivered. -/
def runQuery (b : Backend) (cwd : String) (opts : QueryOptions) :
    QueryResult :=
  match b.getCodexResult with
  | Except.error e => QueryResult.thrown [] e
  | Except.ok _ =>
    match threadResult b cwd opts with
    | Except.error e =>
        QueryResult.thrown [] ("Codex query failed: " ++ e)
    | Except.ok thread =>
      match b.runResult (composePrompt opts) with
      | Except.error e =>
          QueryResult.thrown (sessionIdEvents thread.id)
            ("Codex query failed: " ++ e)
      | Except.ok outcome =>
        match outcome.terminalError with
        | some e =>
            QueryResult.thrown
              (sessionIdEvents thread.id ++ outcome.events.flatMap mapEvent)
              ("Codex query failed: " ++ e)
        | none =>
            QueryResult.ok
              (sessionIdEvents thread.id ++ outcome.events.flatMap mapEvent)

/-- `true` when this backend operation throws. -/
def opThrows {α : Type} : Except String α → Bool
  | Except.error _ => true
  | Except.ok _ => false

/-- `p` is an initial segment of `s`, on the underlying character lists. -/
def beginsWith (p s : String) : Bool :=
  p.data.isPrefixOf s.data

/-- Embeds `CodexClient.listModels`: `getCodex()` and the backend call both
run inside the `try`; any throw is caught and yields `[]`.  On success,
a response with a truthy `items` field maps each item to
`m.model || m.id`; an array response maps each element to
`m.model || m.id || m.name || m`; anything else yields `[]`.  The mapped
JS values are returned as-is (an element may be `undefined`). -/
def listModels (b : Backend) : List JsValue :=
  match b.getCodexResult with
  | Except.error _ => []
  | Except.ok _ =>
    match b.listModelsResult with
    | Except.error _ => []
    | Except.ok r =>
      match r with
      | ModelsResponse.withItems items =>
          items.map (fun m => jsOr (m.field "model") (m.field "id"))
      | ModelsResponse.arrayResp elems =>
          elems.map (fun m =>
            jsOr (jsOr (jsOr (m.field "model") (m.field "id"))
              (m.field "name")) m)
      | ModelsResponse.nullish => []
      | ModelsResponse.otherResp => []

/-- Embeds `CodexClient.healthCheck`: `getCodex()` and `startThread()` run
inside the `try`; any throw is caught and yields `false`; otherwise the
result is the truthiness `!!thread` of the returned thread. -/
def healthCheck (b : Backend) : Bool :=
  match b.getCodexResult with
  | Except.error _ => false
  | Except.ok _ =>
    match b.startPlainResult with
    | Except.error _ => false
    | Except.ok t => t.isSome

end ProviderCodex

namespace ProviderOpenAI

/-- One A2A tool definition, restricted to the fields
`convertA2AToCodexMcpConfig` reads (the input schema and the invocation
handler are never inspected by the conversion). -/
structure A2AToolDefinition where
  name : String
  description : String
deriving DecidableEq, Repr

/-- An A2A server config: declared name, optional version, tool list. -/
structure A2AServerConfig where
  name : String
  version : Option String := none
  tools : List A2AToolDefinition
deriving DecidableEq, Repr

/-- The virtual MCP descriptor emitted per A2A server. -/
structure McpServerDescriptor where
  woprA2A : Bool
  name : String
  version : String
  tools : List String
deriving DecidableEq, Repr

/-- Embeds `convertA2AToCodexMcpConfig` from the A2A/MCP client module:
for each `[serverName, config]` entry of the input record (embedded as an
ordered association list) it emits one descriptor marked `woprA2A`, with
the config's name, `config.version || "1.0.0"` (JS truthiness: an absent
or empty version falls back), and the tool names. -/
def convertA2AToCodexMcpConfig
    (a2aServers : List (String × A2AServerConfig)) :
    List (String × McpServerDescriptor) :=
  a2aServers.map (fun p =>
    (p.1,
      { woprA2A := true
        name := p.2.name
        version :=
          match p.2.version with
          | some v => if v ≠ "" then v else "1.0.0"
          | none => "1.0.0"
        tools := p.2.tools.map A2AToolDefinition.name }))

end ProviderOpenAI

namespace ProviderCodex

/-- Concrete options for the C1 counterexample: one image and a system
prompt, both present. -/
def c1Opts : QueryOptions :=
  { prompt := "p", systemPrompt := some "s", images := some ["u"] }

/-- Concrete options for the C1 amended-order witness. -/
def c1OptsW : QueryOptions :=
  { prompt := "fix bug", systemPrompt := some "be careful",
    images := some ["http://a/1.png", "http://a/2.png"] }

/-- Concrete options for the C3 witness: a non-empty resume token together
with model, temperature and provider overrides. -/
def c3Opts : QueryOptions :=
  { prompt := "continue", resume := some "tok-123", model := some "gpt-x",
    temperature := some 0.1,
    providerOptions := some [("sandboxMode", OptVal.str "danger")] }

/-- A backend for the C3 witness whose start branch would throw. -/
def c3Backend : Backend :=
  { getCodexResult := Except.ok ()
    resumeResult := fun tok => Except.ok { id := some tok }
    startResult := fun _ => Except.error "start branch must not run"
    runResult := fun _ =>
      Except.ok { events := [CodexEvent.turn_started], terminalError := none }
    listModelsResult := Except.ok ModelsResponse.nullish
    startPlainResult := Except.ok (some { id := none }) }

/-- A second start behaviour, to instantiate start-branch independence. -/
def c3AltStart : List (String × OptVal) → Except String Thread :=
  fun _ => Except.ok { id := some "fresh" }

/-- Concrete options for the C4 witness. -/
def c4Opts : QueryOptions := { prompt := "hello" }

/-- A backend for the C4 witness: a fresh thread with id `T1` and a stream
with one message and one usage record. -/
def c4Backend : Backend :=
  { getCodexResult := Except.ok ()
    resumeResult := fun tok => Except.ok { id := some tok }
    startResult := fun _ => Except.ok { id := some "T1" }
    runResult := fun _ =>
      Except.ok
        { events := [CodexEvent.turn_started,
            CodexEvent.item_completed (Item.agent_message "hi"),
            CodexEvent.turn_completed (some ⟨some 3, some 5⟩)]
          terminalError := none }
    listModelsResult := Except.ok ModelsResponse.nullish
    startPlainResult := Except.ok (some { id := none }) }

/-- A backend whose connection construction (`getCodex()`) throws: the SDK
fails to load. -/
def c5ConnFailBackend : Backend :=
  { getCodexResult :=
      Except.error "Codex SDK not installed. Run: npm install @openai/codex-sdk"
    resumeResult := fun _ => Except.error "unreachable"
    startResult := fun _ => Except.error "unreachable"
    runResult := fun _ => Except.error "unreachable"
    listModelsResult := Except.error "unreachable"
    startPlainResult := Except.error "unreachable" }

/-- A backend whose connection succeeds but whose session start throws. -/
def c5StartFailBackend : Backend :=
  { getCodexResult := Except.ok ()
    resumeResult := fun _ => Except.error "bad token"
    startResult := fun _ => Except.error "backend unreachable"
    runResult := fun _ => Except.error "unreachable"
    listModelsResult := Except.error "unreachable"
    startPlainResult := Except.error "unreachable" }

/-- Concrete options for the C5 theorems. -/
def c5Opts : QueryOptions := { prompt := "q" }

/-- A backend that throws on every call, for the C8 witness. -/
def c8ThrowingBackend : Backend :=
  { getCodexResult := Except.ok ()
    resumeResult := fun _ => Except.error "boom"
    startResult := fun _ => Except.error "boom"
    runResult := fun _ => Except.error "boom"
    listModelsResult := Except.error "boom"
    startPlainResult := Except.error "boom" }

/-- A backend that cannot even construct the connection, for the C8
witness. -/
def c8ConnFailBackend : Backend :=
  { getCodexResult := Except.error "no sdk"
    resumeResult := fun _ => Except.error "no sdk"
    startResult := fun _ => Except.error "no sdk"
    runResult := fun _ => Except.error "no sdk"
    listModelsResult := Except.error "no sdk"
    startPlainResult := Except.error "no sdk" }

/-- Concrete options for the C9 witness: an empty-string resume token plus
a temperature. -/
def c9Opts : QueryOptions :=
  { prompt := "go", resume := some "", temperature := some 0.3 }

/-- C1 — counterexample: at one image `"u"`, system prompt `"s"` and prompt
`"p"`, the prompt `composePrompt` actually composes differs from the
image-manifest-first layout the claim states (`composePromptSpecOrder`):
the code prepends the system block in front of the image manifest. -/
theorem composePrompt_claim_counterexample :
    composePrompt c1Opts ≠ composePromptSpecOrder c1Opts := by
  decide

/-- C1 (amended): for every call to query with non-empty images and a
truthy systemPrompt, the outbound prompt is composed in this fixed order:
first the system-prompt block, then the image-manifest block (a count
header followed by one ordinal + URL line per image), then the original
prompt text, with exactly one blank-line separator between consecutive
blocks. -/
theorem composePrompt_block_order (opts : QueryOptions)
    (images : List String) (sp : String)
    (him : opts.images = some images) (hne : images ≠ [])
    (hsp : opts.systemPrompt = some sp) (hspne : sp ≠ "") :
    composePrompt opts =
      "[System: " ++ sp ++ "]" ++ "\n\n" ++
      ("[User has shared " ++ toString images.length ++ " image(s)]" ++ "\n" ++
        String.intercalate "\n"
          (images.enum.map (fun p =>
            "[Image " ++ toString (p.1 + 1) ++ "]: " ++ p.2))) ++
      "\n\n" ++ opts.prompt := by
  have hlen : 0 < images.length := List.length_pos.mpr hne
  have h1 : ("]\n\n" : String) = "]" ++ "\n\n" := rfl
  have h2 : (" image(s)]\n" : String) = " image(s)]" ++ "\n" := rfl
  simp only [composePrompt, him, hsp, hspne, if_pos hlen, decide_not,
    ne_eq, not_false_eq_true, if_true, ite_true]
  rw [h1, h2]
  simp only [← String.append_assoc]

/-- Witness for the amended C1 at two concrete images, a concrete system
prompt and a concrete prompt. -/
theorem composePrompt_block_order_witness :
    composePrompt c1OptsW =
      "[System: " ++ "be careful" ++ "]" ++ "\n\n" ++
      ("[User has shared " ++ toString (["http://a/1.png", "http://a/2.png"] : List String).length ++ " image(s)]" ++ "\n" ++
        String.intercalate "\n"
          ((["http://a/1.png", "http://a/2.png"] : List String).enum.map
            (fun p => "[Image " ++ toString (p.1 + 1) ++ "]: " ++ p.2))) ++
      "\n\n" ++ c1OptsW.prompt :=
  composePrompt_block_order c1OptsW ["http://a/1.png", "http://a/2.png"]
    "be careful" rfl (by decide) rfl (by decide)

/-- C2: `temperatureToEffort` is total and deterministic (it is a function)
and matches the bracket table exactly: undefined maps to medium, t ≤ 0.2
to xhigh, 0.2 < t ≤ 0.4 to high, 0.4 < t ≤ 0.6 to medium, 0.6 < t ≤ 0.8
to low, t > 0.8 to minimal; each boundary resolves to the higher-effort
bracket. -/
theorem temperatureToEffort_brackets (t : ℚ) :
    temperatureToEffort none = Effort.medium ∧
    (t ≤ 0.2 → temperatureToEffort (some t) = Effort.xhigh) ∧
    (0.2 < t → t ≤ 0.4 → temperatureToEffort (some t) = Effort.high) ∧
    (0.4 < t → t ≤ 0.6 → temperatureToEffort (some t) = Effort.medium) ∧
    (0.6 < t → t ≤ 0.8 → temperatureToEffort (some t) = Effort.low) ∧
    (0.8 < t → temperatureToEffort (some t) = Effort.minimal) := by
  refine ⟨rfl, ?_, ?_, ?_, ?_, ?_⟩ <;> intros <;>
    simp only [temperatureToEffort] <;> split_ifs <;>
      first | rfl | linarith

/-- Witness for C2 at the four boundary temperatures and one value above
the last boundary. -/
theorem temperatureToEffort_brackets_witness :
    temperatureToEffort (some 0.2) = Effort.xhigh ∧
    temperatureToEffort (some 0.4) = Effort.high ∧
    temperatureToEffort (some 0.6) = Effort.medium ∧
    temperatureToEffort (some 0.8) = Effort.low ∧
    temperatureToEffort (some 0.9) = Effort.minimal :=
  ⟨(temperatureToEffort_brackets 0.2).2.1 (by norm_num),
   (temperatureToEffort_brackets 0.4).2.2.1 (by norm_num) (by norm_num),
   (temperatureToEffort_brackets 0.6).2.2.2.1 (by norm_num) (by norm_num),
   (temperatureToEffort_brackets 0.8).2.2.2.2.1 (by norm_num) (by norm_num),
   (temperatureToEffort_brackets 0.9).2.2.2.2.2 (by norm_num)⟩

/-- C3: for every options record whose resume field is a non-empty string,
query takes only the resume branch — the branch selection resolves to
`resumeBranch` with that token, and the outcome of the whole call is
independent of the backend's start-thread behaviour — regardless of which
other fields (model, temperature, providerOptions) are set. -/
theorem query_resume_takes_precedence (b : Backend) (cwd : String)
    (opts : QueryOptions) (s : String)
    (hres : opts.resume = some s) (hne : s ≠ "") :
    threadSpec cwd opts = ThreadSpec.resumeBranch s ∧
    ∀ start1 start2 : List (String × OptVal) → Except String Thread,
      runQuery { b with startResult := start1 } cwd opts =
        runQuery { b with startResult := start2 } cwd opts := by
  have hspec : threadSpec cwd opts = ThreadSpec.resumeBranch s := by
    simp [threadSpec, hres, hne]
  refine ⟨hspec, fun start1 start2 => ?_⟩
  obtain ⟨gc, rr, sr, run, lm, stp⟩ := b
  simp only [runQuery, threadResult, hspec]

/-- Witness for C3: options carrying resume token `tok-123` together with
a model, a temperature and a provider override, run against two backends
differing only in start-thread behaviour. -/
theorem query_resume_takes_precedence_witness :
    threadSpec "/cwd" c3Opts = ThreadSpec.resumeBranch "tok-123" ∧
    runQuery { c3Backend with startResult := c3Backend.startResult }
        "/cwd" c3Opts =
      runQuery { c3Backend with startResult := c3AltStart } "/cwd" c3Opts := by
  have h := query_resume_takes_precedence c3Backend "/cwd" c3Opts "tok-123"
    rfl (by decide)
  exact ⟨h.1, h.2 c3Backend.startResult c3AltStart⟩

/-- Helper: the backend-event switch never emits a `session_id` event. -/
theorem mapEvent_no_sessionId (ev : CodexEvent) :
    ∀ x ∈ mapEvent ev, x.isSessionId = false := by
  intro x hx
  cases ev with
  | thread_started tid =>
      simp [mapEvent] at hx; simp [hx, NormalizedEvent.isSessionId]
  | turn_started =>
      simp [mapEvent] at hx; simp [hx, NormalizedEvent.isSessionId]
  | item_completed item =>
      cases item <;> simp_all [mapEvent, mapItem, NormalizedEvent.isSessionId]
  | turn_completed u =>
      simp [mapEvent] at hx; simp [hx, NormalizedEvent.isSessionId]
  | turn_failed m =>
      simp [mapEvent] at hx; simp [hx, NormalizedEvent.isSessionId]
  | otherEvent t => simp [mapEvent] at hx

/-- Helper: the stream-mapping phase never emits a `session_id` event. -/
theorem flatMap_no_sessionId (evs : List CodexEvent) :
    ∀ x ∈ evs.flatMap mapEvent, x.isSessionId = false := by
  intro x hx
  rw [List.mem_flatMap] at hx
  obtain ⟨ev, _, hxev⟩ := hx
  exact mapEvent_no_sessionId ev x hxev

/-- Helper: in a list of the shape `sessionIdEvents tid ++ rest` where
`rest` holds no session event, any session event present is the head and
the only one. -/
theorem sessionId_position (tid : Option String)
    (rest : List NormalizedEvent)
    (hrest : ∀ x ∈ rest, x.isSessionId = false)
    (e : NormalizedEvent) (hs : e.isSessionId = true)
    (he : e ∈ sessionIdEvents tid ++ rest) :
    (sessionIdEvents tid ++ rest).head? = some e ∧
    (sessionIdEvents tid ++ rest).countP NormalizedEvent.isSessionId = 1 := by
  have hzero : rest.countP NormalizedEvent.isSessionId = 0 := by
    rw [List.countP_eq_zero]
    intro a ha
    simp [hrest a ha]
  match tid with
  | none =>
    simp only [sessionIdEvents, List.nil_append] at he ⊢
    exact absurd hs (by simp [hrest e he])
  | some t =>
    by_cases ht : t = ""
    · simp only [sessionIdEvents, ht, ne_eq, not_true_eq_false, if_false,
        List.nil_append] at he ⊢
      exact absurd hs (by simp [hrest e he])
    · simp only [sessionIdEvents, ne_eq, ht, not_false_eq_true, if_true] at he ⊢
      have hee : e = NormalizedEvent.session_id t := by
        rcases List.mem_append.mp he with hpre | hadd
        · simpa using hpre
        · exact absurd hs (by simp [hrest e hadd])
      subst hee
      refine ⟨rfl, ?_⟩
      simp [List.countP_cons, hzero, NormalizedEvent.isSessionId]

/-- Helper: the events a query call delivers are either empty or a
session-event block followed by stream-mapped events that contain no
session event. -/
theorem runQuery_events_shape (b : Backend) (cwd : String)
    (opts : QueryOptions) :
    (runQuery b cwd opts).events = [] ∨
    ∃ tid rest, (runQuery b cwd opts).events = sessionIdEvents tid ++ rest ∧
      ∀ x ∈ rest, x.isSessionId = false := by
  unfold runQuery
  cases hgc : b.getCodexResult with
  | error msg => exact Or.inl rfl
  | ok u =>
    cases htr : threadResult b cwd opts with
    | error msg => exact Or.inl rfl
    | ok thread =>
      cases hrun : b.runResult (composePrompt opts) with
      | error msg =>
          exact Or.inr ⟨thread.id, [], by simp [QueryResult.events], by simp⟩
      | ok outcome =>
        cases hterm : outcome.terminalError with
        | none =>
            exact Or.inr ⟨thread.id, outcome.events.flatMap mapEvent,
              by simp [QueryResult.events, hterm], flatMap_no_sessionId _⟩
        | some msg =>
            exact Or.inr ⟨thread.id, outcome.events.flatMap mapEvent,
              by simp [QueryResult.events, hterm], flatMap_no_sessionId _⟩

/-- C4: whenever a `session_id` event occurs among the events a query call
delivered, it is the first delivered event and the only `session_id`
event of the call. -/
theorem query_sessionId_first (b : Backend) (cwd : String)
    (opts : QueryOptions) (e : NormalizedEvent)
    (hs : e.isSessionId = true)
    (he : e ∈ (runQuery b cwd opts).events) :
    (runQuery b cwd opts).events.head? = some e ∧
    (runQuery b cwd opts).events.countP NormalizedEvent.isSessionId = 1 := by
  rcases runQuery_events_shape b cwd opts with hnil | ⟨tid, rest, hshape, hrest⟩
  · rw [hnil] at he
    cases he
  · rw [hshape] at he ⊢
    exact sessionId_position tid rest hrest e hs he

/-- Witness for C4: a backend assigning thread id `T1` and streaming three
recognized events. -/
theorem query_sessionId_first_witness :
    (runQuery c4Backend "/cwd" c4Opts).events.head? =
      some (NormalizedEvent.session_id "T1") ∧
    (runQuery c4Backend "/cwd" c4Opts).events.countP
      NormalizedEvent.isSessionId = 1 :=
  query_sessionId_first c4Backend "/cwd" c4Opts
    (NormalizedEvent.session_id "T1") rfl (by decide)

/-- Helper: a string extended on the right still begins with itself. -/
theorem beginsWith_append (p s : String) : beginsWith p (p ++ s) = true := by
  simp [beginsWith, String.data_append, List.isPrefixOf_iff_prefix,
    List.prefix_append]

/-- C5 — counterexample: connection construction (`getCodex()`) runs before
the `try` block of `query`, so its failure is re-raised unwrapped: the
thrown message is the SDK-load error itself, and it does not begin with
the fixed prefix `Codex query failed: `. -/
theorem query_unwrapped_conn_error_counterexample :
    runQuery c5ConnFailBackend "/cwd" c5Opts =
      QueryResult.thrown []
        "Codex SDK not installed. Run: npm install @openai/codex-sdk" ∧
    beginsWith "Codex query failed: "
      "Codex SDK not installed. Run: npm install @openai/codex-sdk" = false :=
  ⟨rfl, by decide⟩

/-- C5 (amended): once connection construction succeeded, every exception
raised during the call — session start or resume, issuing the run, or
mid-stream — is caught exactly once at the top level of `query` and
re-raised wrapped in an error whose message begins with the fixed prefix
`Codex query failed: `; a failure of connection construction itself,
raised before the `try` block, propagates unwrapped. -/
theorem query_wraps_try_errors (b : Backend) (cwd : String)
    (opts : QueryOptions) (hconn : b.getCodexResult = Except.ok ())
    (evs : List NormalizedEvent) (msg : String)
    (hthrow : runQuery b cwd opts = QueryResult.thrown evs msg) :
    beginsWith "Codex query failed: " msg = true := by
  cases htr : threadResult b cwd opts with
  | error e =>
    have hq : runQuery b cwd opts =
        QueryResult.thrown [] ("Codex query failed: " ++ e) := by
      simp [runQuery, hconn, htr]
    rw [hq] at hthrow
    cases hthrow
    exact beginsWith_append _ _
  | ok thread =>
    cases hrun : b.runResult (composePrompt opts) with
    | error e =>
      have hq : runQuery b cwd opts =
          QueryResult.thrown (sessionIdEvents thread.id)
            ("Codex query failed: " ++ e) := by
        simp [runQuery, hconn, htr, hrun]
      rw [hq] at hthrow
      cases hthrow
      exact beginsWith_append _ _
    | ok outcome =>
      cases hterm : outcome.terminalError with
      | none =>
        have hq : runQuery b cwd opts =
            QueryResult.ok
              (sessionIdEvents thread.id ++ outcome.events.flatMap mapEvent) := by
          simp [runQuery, hconn, htr, hrun, hterm]
        rw [hq] at hthrow
        cases hthrow
      | some e =>
        have hq : runQuery b cwd opts =
            QueryResult.thrown
              (sessionIdEvents thread.id ++ outcome.events.flatMap mapEvent)
              ("Codex query failed: " ++ e) := by
          simp [runQuery, hconn, htr, hrun, hterm]
        rw [hq] at hthrow
        cases hthrow
        exact beginsWith_append _ _

/-- Witness for the amended C5: a backend whose connection succeeds but
whose session start throws `backend unreachable`. -/
theorem query_wraps_try_errors_witness :
    beginsWith "Codex query failed: "
      "Codex query failed: backend unreachable" = true :=
  query_wraps_try_errors c5StartFailBackend "/cwd" c5Opts rfl []
    "Codex query failed: backend unreachable" rfl

/-- C6: a backend event with an unrecognized kind produces no normalized
event and is not fatal: mapping it yields nothing, and a stream
containing it normalizes to exactly the events of the surrounding stream,
in arrival order. -/
theorem unknown_event_dropped (tag : String) (pre post : List CodexEvent) :
    mapEvent (CodexEvent.otherEvent tag) = [] ∧
    (pre ++ CodexEvent.otherEvent tag :: post).flatMap mapEvent =
      pre.flatMap mapEvent ++ post.flatMap mapEvent := by
  refine ⟨rfl, ?_⟩
  simp [mapEvent]

/-- C10: an `item.completed` event whose item type is unrecognized
produces no normalized event, and a stream containing it normalizes to
exactly the events of the surrounding stream, in arrival order. -/
theorem unknown_item_dropped (tag : String) (pre post : List CodexEvent) :
    mapItem (Item.otherItem tag) = [] ∧
    mapEvent (CodexEvent.item_completed (Item.otherItem tag)) = [] ∧
    (pre ++ CodexEvent.item_completed (Item.otherItem tag) :: post).flatMap
        mapEvent =
      pre.flatMap mapEvent ++ post.flatMap mapEvent := by
  refine ⟨rfl, rfl, ?_⟩
  simp [mapEvent, mapItem]

/-- C8: `listModels` and `healthCheck` are total functions of the backend
oracle (they never raise); `listModels` returns the empty list whenever
connection construction or the model-list call throws, and `healthCheck`
returns false whenever connection construction or the minimal session
start throws. -/
theorem discovery_never_raises (b : Backend) :
    (opThrows b.getCodexResult = true ∨ opThrows b.listModelsResult = true →
      listModels b = []) ∧
    (opThrows b.getCodexResult = true ∨ opThrows b.startPlainResult = true →
      healthCheck b = false) := by
  constructor
  · intro h
    unfold listModels
    cases hgc : b.getCodexResult with
    | error e => rfl
    | ok u =>
      cases hlm : b.listModelsResult with
      | error e => rfl
      | ok r =>
        exfalso
        rcases h with h | h <;> simp [opThrows, hgc, hlm] at h
  · intro h
    unfold healthCheck
    cases hgc : b.getCodexResult with
    | error e => rfl
    | ok u =>
      cases hsp : b.startPlainResult with
      | error e => rfl
      | ok t =>
        exfalso
        rcases h with h | h <;> simp [opThrows, hgc, hsp] at h

/-- Witness for C8: a backend that throws on every call, and one that
cannot even construct the connection. -/
theorem discovery_never_raises_witness :
    listModels c8ThrowingBackend = [] ∧
    healthCheck c8ThrowingBackend = false ∧
    listModels c8ConnFailBackend = [] ∧
    healthCheck c8ConnFailBackend = false :=
  ⟨(discovery_never_raises c8ThrowingBackend).1 (Or.inr rfl),
   (discovery_never_raises c8ThrowingBackend).2 (Or.inr rfl),
   (discovery_never_raises c8ConnFailBackend).1 (Or.inl rfl),
   (discovery_never_raises c8ConnFailBackend).2 (Or.inl rfl)⟩

/-- C9: an empty-string resume token is treated as absent: the call takes
the start-new-session branch, whose composed base thread options carry
the working directory, the fixed sandbox and approval policy, and the
reasoning-effort level mapped from the temperature. -/
theorem query_empty_resume_starts_fresh (cwd : String) (opts : QueryOptions)
    (hres : opts.resume = some "") :
    threadSpec cwd opts =
      ThreadSpec.startBranch (startThreadOptions cwd opts) ∧
    (baseThreadOptions cwd opts).lookup "workingDirectory" =
      some (OptVal.str cwd) ∧
    (baseThreadOptions cwd opts).lookup "sandboxMode" =
      some (OptVal.str "workspace-write") ∧
    (baseThreadOptions cwd opts).lookup "approvalPolicy" =
      some (OptVal.str "never") ∧
    (baseThreadOptions cwd opts).lookup "modelReasoningEffort" =
      some (OptVal.effortVal (temperatureToEffort opts.temperature)) := by
  refine ⟨by simp [threadSpec, hres], ?_, ?_, ?_, ?_⟩ <;>
    · rcases hm : opts.model with _ | m
      · simp [baseThreadOptions, assignKey, hm, List.lookup]
      · by_cases hme : m = "" <;>
          simp [baseThreadOptions, assignKey, hm, hme, List.lookup]

/-- Witness for C9 at concrete options with an empty resume token and
temperature 0.3. -/
theorem query_empty_resume_starts_fresh_witness :
    threadSpec "/cwd" c9Opts =
      ThreadSpec.startBranch (startThreadOptions "/cwd" c9Opts) ∧
    (baseThreadOptions "/cwd" c9Opts).lookup "workingDirectory" =
      some (OptVal.str "/cwd") ∧
    (baseThreadOptions "/cwd" c9Opts).lookup "sandboxMode" =
      some (OptVal.str "workspace-write") ∧
    (baseThreadOptions "/cwd" c9Opts).lookup "approvalPolicy" =
      some (OptVal.str "never") ∧
    (baseThreadOptions "/cwd" c9Opts).lookup "modelReasoningEffort" =
      some (OptVal.effortVal (temperatureToEffort c9Opts.temperature)) :=
  query_empty_resume_starts_fresh "/cwd" c9Opts rfl

end ProviderCodex

namespace ProviderOpenAI

/-- C7: the A2A-to-MCP conversion is a total function (it never throws),
the empty mapping — which also embeds the guarded absent input — converts
to the empty mapping, and every input converts to exactly one descriptor
per server entry, keyed by the same server names in order. -/
theorem convertA2A_total_empty_one_per_entry :
    convertA2AToCodexMcpConfig [] = [] ∧
    ∀ servers : List (String × A2AServerConfig),
      (convertA2AToCodexMcpConfig servers).length = servers.length ∧
      (convertA2AToCodexMcpConfig servers).map Prod.fst =
        servers.map Prod.fst := by
  refine ⟨rfl, fun servers => ⟨?_, ?_⟩⟩
  · simp [convertA2AToCodexMcpConfig]
  · simp [convertA2AToCodexMcpConfig]

end ProviderOpenAI

